import Mathlib

/-!
Verification of the speeding / off-road grading pass
(`src/grading_metrics/speeding.py`).

The core of the program is `walk_msg_section`: a single forward pass over a
time-ordered message stream that maintains the current lane (under
disambiguation), a running minimum speed margin, and a debounced off-road
detector that appends boundary-distance samples.

Shallow embedding conventions:
* scalar quantities (timestamps, speeds, distances, speed limits) are `ℚ`;
* lane ids are `String` (opaque handles);
* the external collaborators (map index `map_tools.efficient_fetch_lane`,
  shapely distances, `math.sqrt`, `construct_adc_polygon` /
  `construct_lane_linestring`) are oracle functions bundled in `Env`;
* the Python `set` of traveled lanes is a `Finset String`;
* Python exceptions from missing message fields are modelled in a separate
  `Except`-valued variant (`walkStepE` / `walkRunE`); the total model assumes
  well-formed messages.
-/

set_option linter.unusedVariables false

abbrev LaneId := String

/-- 2-D vector (position or linear velocity components `x`, `y`). -/
structure Vec2 where
  x : ℚ
  y : ℚ
deriving DecidableEq

/-- `parsed_msg.pose`: position and linear velocity of the ego car. -/
structure Pose where
  position : Vec2
  linear_velocity : Vec2
deriving DecidableEq

/-- A lane entry of the cached lane dictionary: only the speed limit is read
by this pass (`lanes[current_lane].speed_limit`). -/
structure Lane where
  speed_limit : ℚ
deriving DecidableEq

/-- `segment` of a routing-response passage (`segment.id`). -/
structure Segment where
  id : LaneId
deriving DecidableEq

/-- `passage` of a routing-response road. -/
structure Passage where
  segment : List Segment
deriving DecidableEq

/-- `road` of a routing response. -/
structure Road where
  passage : List Passage
deriving DecidableEq

/-- `parsed_msg.debug.planning_data.routing`: the routing response, an ordered
road → passage → segment structure. -/
structure RoutingResponse where
  road : List Road
deriving DecidableEq

/-- External collaborators of the pass, treated as black-box oracles:
the lane dictionary, the spatial lane query, the two shapely distance
computations, and `math.sqrt`. -/
structure Env where
  /-- `lanes` dictionary; the map is assumed internally consistent, so the
  lookup is total. -/
  lanes : LaneId → Lane
  /-- `math.sqrt` (external library function on scalars). -/
  sqrt : ℚ → ℚ
  /-- `map_tools.efficient_fetch_lane(x, y, current_lane, lanes, priority_lanes)`:
  candidate lanes containing the position. -/
  efficient_fetch_lane : ℚ → ℚ → Option LaneId → Option (List LaneId) → List LaneId
  /-- `construct_adc_polygon(pose).distance(construct_lane_linestring(lanes[lane]))`:
  distance from the ego-car polygon to the lane-boundary linestring. -/
  polygon_boundary_dist : Pose → LaneId → ℚ
  /-- `Point(current_x, current_y).distance(lane_linestring)`: distance from the
  ego-car center point to the lane-boundary linestring. -/
  point_boundary_dist : ℚ → ℚ → LaneId → ℚ

/-- `calculate_speed(linear_velocity)`: `math.sqrt(x**2 + y**2)`. -/
def calculate_speed (env : Env) (linear_velocity : Vec2) : ℚ :=
  env.sqrt (linear_velocity.x ^ 2 + linear_velocity.y ^ 2)

/-- `OFF_LANE_THRESHOLD = 5`. -/
def OFF_LANE_THRESHOLD : ℚ := 5

/-- One step of the triple-nested loop body of `get_next_lanes`:
`if lane_id == current_lane_id: is_hit = True` followed by
`if is_hit or current_lane_id is None: next_lanes.append(lane_id)`.
The accumulator is the pair `(next_lanes, is_hit)`. -/
def gnlStep (current_lane_id : Option LaneId) (acc : List LaneId × Bool)
    (lane_id : LaneId) : List LaneId × Bool :=
  let is_hit := if some lane_id = current_lane_id then true else acc.2
  if is_hit || current_lane_id.isNone then (acc.1 ++ [lane_id], is_hit)
  else (acc.1, is_hit)

/-- `get_next_lanes(routing_response_msg, current_lane_id)`: walk all passages
of the routing response; once the current lane id is seen, include it and all
following segments; with no current lane, include the whole plan. -/
def get_next_lanes (routing_response_msg : RoutingResponse)
    (current_lane_id : Option LaneId) : List LaneId :=
  (routing_response_msg.road.foldl (fun acc road =>
    road.passage.foldl (fun acc passage =>
      passage.segment.foldl (fun acc segment =>
        gnlStep current_lane_id acc segment.id) acc) acc) ([], false)).1

/-- All lane ids of a routing response, in plan order (flattening of the
road → passage → segment nesting walked by `get_next_lanes`). -/
def planLanes (routing_response_msg : RoutingResponse) : List LaneId :=
  (routing_response_msg.road.map (fun road =>
    (road.passage.map (fun passage => passage.segment.map Segment.id)).flatten)).flatten

/-- Python `list.index` semantics: index of the first occurrence, `none` in
place of the `ValueError`. -/
def listIndex (needle : LaneId) : List LaneId → Option Nat
  | [] => none
  | x :: xs => if x = needle then some 0 else (listIndex needle xs).map (· + 1)

/-- The candidate scan of the multi-candidate branch (lines 124–130):
for each `suspect_lane` try `loc = next_lanes.index(suspect_lane)`; on
`ValueError`, set `back_lane = suspect_lane` when the suspect is in
`traveled_lanes`.  Returns the final `(loc, back_lane)`. -/
def scanLanes (next_lanes : List LaneId) (traveled_lanes : Finset LaneId) :
    List LaneId → Option Nat → Option LaneId → Option Nat × Option LaneId
  | [], loc, back_lane => (loc, back_lane)
  | suspect_lane :: rest, loc, back_lane =>
    match listIndex suspect_lane next_lanes with
    | some i => scanLanes next_lanes traveled_lanes rest (some i) back_lane
    | none =>
      scanLanes next_lanes traveled_lanes rest loc
        (if suspect_lane ∈ traveled_lanes then some suspect_lane else back_lane)

/-- Lane disambiguation (lines 120–138): one candidate wins outright; with
several, `next_lanes[loc]` wins if some candidate was found in `next_lanes`,
else the back-travel lane, else `current_lanes[0]`; no candidate means
off-lane (`None`).  The `""` defaults are unreachable: the indices always come
from a successful `listIndex` and the lists are nonempty in their branches. -/
def resolveLane (current_lanes next_lanes : List LaneId)
    (traveled_lanes : Finset LaneId) : Option LaneId :=
  if current_lanes.length = 1 then
    some (current_lanes.getD 0 "")
  else if current_lanes.length > 1 then
    let scanned := scanLanes next_lanes traveled_lanes current_lanes none none
    match scanned.1 with
    | some i => some (next_lanes.getD i "")
    | none =>
      match scanned.2 with
      | some back_lane => some back_lane
      | none => some (current_lanes.getD 0 "")
  else none

/-- The off-road debounce update (lines 182–204), as a function of the step
inputs and the carried pair `(off_road_candidate_lane, intersect_start_time)`.
Returns the new pair and the boundary-distance sample appended this step, if
any (the appended value is `point_dist`, the center-point distance). -/
def offRoadUpdate (current_time : ℚ) (current_lane : LaneId)
    (dist_to_boundary point_dist : ℚ) (off_road_candidate_lane : Option LaneId)
    (intersect_start_time : Option ℚ) :
    Option LaneId × Option ℚ × Option ℚ :=
  if off_road_candidate_lane = none ∧ dist_to_boundary = 0 then
    (some current_lane, some current_time, none)
  else
    match intersect_start_time with
    | some st =>
      let time_gap := current_time - st
      if time_gap ≥ OFF_LANE_THRESHOLD then
        if dist_to_boundary = 0 then
          (off_road_candidate_lane, intersect_start_time, some point_dist)
        else
          (none, none, none)
      else if time_gap < OFF_LANE_THRESHOLD ∧ dist_to_boundary ≠ 0 then
        (none, none, none)
      else
        (off_road_candidate_lane, intersect_start_time, none)
    | none => (off_road_candidate_lane, intersect_start_time, some point_dist)

/-- The carried state of `walk_msg_section` (the locals that persist across
loop iterations and affect behaviour). -/
structure WalkState where
  traveled_lanes : Finset LaneId
  current_lane : Option LaneId
  priority_lanes : Option (List LaneId)
  off_road_candidate_lane : Option LaneId
  intersect_start_time : Option ℚ
  next_lanes : List LaneId
  min_speed : ℚ
  dist_list : List ℚ
  localization_num : Nat
  init_timestamp : Option ℚ
deriving DecidableEq

/-- `sys.maxsize` (64-bit). -/
def sysMaxsize : ℚ := 9223372036854775807

/-- The state at the top of `walk_msg_section`, before any message. -/
def initState : WalkState :=
  { traveled_lanes := ∅
    current_lane := none
    priority_lanes := none
    off_road_candidate_lane := none
    intersect_start_time := none
    next_lanes := []
    min_speed := sysMaxsize
    dist_list := []
    localization_num := 0
    init_timestamp := none }

/-- The arguments of one `map_tools.efficient_fetch_lane` call. -/
structure ResolverCall where
  x : ℚ
  y : ℚ
  prev : Option LaneId
  hint : Option (List LaneId)
deriving DecidableEq

/-- Observation record of one localization step: its timestamp, the resolver
call it made, the resolved lane, and whether the step was cut short by the
warm-up check (`init_timestamp` unset, or gap `≤ 5`). -/
structure StepLog where
  time : ℚ
  call : ResolverCall
  resolved : Option LaneId
  warm : Bool
deriving DecidableEq

/-- A message of the stream, already dispatched by channel name:
`/apollo/planning` carries `debug.planning_data.routing`,
`/apollo/localization/pose` carries `pose`; all messages carry
`header.timestamp_sec`. -/
inductive Msg where
  | planning (timestamp_sec : ℚ) (routing : RoutingResponse)
  | localization (timestamp_sec : ℚ) (pose : Pose)
  | other (timestamp_sec : ℚ)
deriving DecidableEq

/-- The localization branch of the message loop (lines 102–204): lane fetch
and disambiguation, warm-up check, traveled-lane and speed-margin updates,
off-road debounce.  Also returns the observation record of the step. -/
def locStep (env : Env) (s : WalkState) (current_time : ℚ) (pose : Pose) :
    WalkState × StepLog :=
  let current_x := pose.position.x
  let current_y := pose.position.y
  let current_speed := calculate_speed env pose.linear_velocity * ((36 : ℚ) / 10)
  let current_lanes :=
    env.efficient_fetch_lane current_x current_y s.current_lane s.priority_lanes
  let resolved := resolveLane current_lanes s.next_lanes s.traveled_lanes
  let s1 := { s with
    localization_num := s.localization_num + 1
    current_lane := resolved }
  let call : ResolverCall := ⟨current_x, current_y, s.current_lane, s.priority_lanes⟩
  match s.init_timestamp with
  | none => ({ s1 with init_timestamp := some current_time },
             ⟨current_time, call, resolved, true⟩)
  | some t0 =>
    if current_time - t0 ≤ 5 then
      (s1, ⟨current_time, call, resolved, true⟩)
    else
      match resolved with
      | none => (s1, ⟨current_time, call, resolved, false⟩)
      | some lane =>
        let s2 := { s1 with traveled_lanes := insert lane s1.traveled_lanes }
        let speed_limit := (env.lanes lane).speed_limit * ((36 : ℚ) / 10)
        let s3 :=
          if speed_limit ≠ 0 ∨ current_lanes.length > 1 then
            let speed_diff := speed_limit - current_speed
            if speed_diff < s2.min_speed then { s2 with min_speed := speed_diff }
            else s2
          else s2
        let dist_to_boundary := env.polygon_boundary_dist pose lane
        let point_dist := env.point_boundary_dist current_x current_y lane
        let upd := offRoadUpdate current_time lane dist_to_boundary point_dist
          s3.off_road_candidate_lane s3.intersect_start_time
        ({ s3 with
            off_road_candidate_lane := upd.1
            intersect_start_time := upd.2.1
            dist_list := s3.dist_list ++ upd.2.2.toList },
         ⟨current_time, call, resolved, false⟩)

/-- One iteration of the message loop of `walk_msg_section`, dispatching on
the channel name. -/
def walkStep (env : Env) (s : WalkState) (m : Msg) : WalkState × Option StepLog :=
  match m with
  | Msg.planning _ routing =>
    ({ s with next_lanes := get_next_lanes routing s.current_lane }, none)
  | Msg.localization t pose =>
    let r := locStep env s t pose
    (r.1, some r.2)
  | Msg.other _ => (s, none)

/-- The message loop from an arbitrary carried state, also accumulating the
per-localization-step observation records. -/
def walkRunFrom (env : Env) (s : WalkState) : List Msg → WalkState × List StepLog
  | [] => (s, [])
  | m :: ms =>
    let r := walkStep env s m
    let rest := walkRunFrom env r.1 ms
    (rest.1, r.2.toList ++ rest.2)

/-- `walk_msg_section`: the whole pass from the initial carried state. -/
def walkRun (env : Env) (msgs : List Msg) : WalkState × List StepLog :=
  walkRunFrom env initState msgs

/-- Timestamp of the first localization message of a stream (the value
`init_timestamp` gets latched to). -/
def firstLocTs : List Msg → Option ℚ
  | [] => none
  | Msg.localization t _ :: _ => some t
  | _ :: ms => firstLocTs ms

/-- Warm-up predicate at a step: `init_timestamp` not yet set, or the gap from
it is at most 5 time units (lines 144–148). -/
def isWarm (s : WalkState) (current_time : ℚ) : Bool :=
  match s.init_timestamp with
  | none => true
  | some t0 => decide (current_time - t0 ≤ 5)

/-- A raw message before field access: each field read by the loop is an
`Except`, modelling the Python attribute accesses, which raise on a missing
field (there is no `try`/`except` around them in `walk_msg_section`). -/
structure RawMsg where
  channel : String
  timestamp_sec : Except String ℚ
  routing : Except String RoutingResponse
  pose : Except String Pose

/-- One iteration of the message loop with fallible field access, in the
order the source reads the fields: `header.timestamp_sec` first, then the
channel-specific payload.  An access failure is an uncaught exception. -/
def walkStepE (env : Env) (s : WalkState) (m : RawMsg) : Except String WalkState :=
  match m.timestamp_sec with
  | Except.error e => Except.error e
  | Except.ok t =>
    if m.channel = "/apollo/planning" then
      match m.routing with
      | Except.error e => Except.error e
      | Except.ok routing =>
        Except.ok { s with next_lanes := get_next_lanes routing s.current_lane }
    else if m.channel = "/apollo/localization/pose" then
      match m.pose with
      | Except.error e => Except.error e
      | Except.ok pose => Except.ok (locStep env s t pose).1
    else Except.ok s

/-- The message loop with fallible field access: an uncaught exception aborts
the whole pass (no further message is processed). -/
def walkRunE (env : Env) (s : WalkState) : List RawMsg → Except String WalkState
  | [] => Except.ok s
  | m :: ms =>
    match walkStepE env s m with
    | Except.ok s1 => walkRunE env s1 ms
    | Except.error e => Except.error e

/-- Modelled from the spec (4.2a), for comparison with the code: the *first*
candidate in candidate iteration order that is a member of `nextLanes`. -/
def specFirstRoutingMatch (candidates next_lanes : List LaneId) : Option LaneId :=
  candidates.find? (fun c => decide (c ∈ next_lanes))

/-- The routing match the code actually computes: the *last* candidate in
iteration order that is a member of `next_lanes` (the scan loop overwrites
`loc` without breaking). -/
def lastRoutingMatch (candidates next_lanes : List LaneId) : Option LaneId :=
  candidates.foldl (fun acc c => if c ∈ next_lanes then some c else acc) none

/-! ### Concrete fixtures for counterexamples and witnesses -/

/-- A lane with speed limit 10 (36 km/h after the `* 3.6` conversion). -/
def laneL : Lane := ⟨10⟩

/-- Concrete oracle bundle: every position is contained in the single lane
`"L"`, the ego-car polygon always touches the lane boundary
(`polygon_boundary_dist = 0`), and the ego-car center point always sits at
distance 1 from the boundary. -/
def env1 : Env :=
  { lanes := fun _ => laneL
    sqrt := fun _ => 0
    efficient_fetch_lane := fun _ _ _ _ => ["L"]
    polygon_boundary_dist := fun _ _ => 0
    point_boundary_dist := fun _ _ _ => 1 }

/-- A pose at the origin with zero velocity. -/
def pose0 : Pose := ⟨⟨0, 0⟩, ⟨0, 0⟩⟩

/-- A localization message at a given timestamp, with pose `pose0`. -/
def locMsg (t : ℚ) : Msg := Msg.localization t pose0

/-- Scenario: boundary contact (polygon distance 0 under `env1`) at every
step; localization messages at times 0 (warm-up anchor) and 6..12, i.e. the
post-warm-up boundary distance is 0 for 6 consecutive time units. -/
def msgs1 : List Msg :=
  [locMsg 0, locMsg 6, locMsg 7, locMsg 8, locMsg 9, locMsg 10, locMsg 11, locMsg 12]

/-- A one-road, one-passage plan with segments `a`, `b`. -/
def cexPlan : RoutingResponse := ⟨[⟨[⟨[⟨"a"⟩, ⟨"b"⟩]⟩]⟩]⟩

/-- A well-formed raw localization message (its routing field is absent, as
on a real localization payload, but the loop never reads it there). -/
def rawLoc (t : ℚ) : RawMsg :=
  ⟨"/apollo/localization/pose", Except.ok t, Except.error "no routing field",
   Except.ok pose0⟩

/-- A malformed raw message: its header timestamp field is missing, so the
very first access of the loop body raises. -/
def badRawMsg : RawMsg :=
  ⟨"/apollo/localization/pose", Except.error "missing header",
   Except.error "missing routing", Except.ok pose0⟩

/-- Stream with a malformed message between two well-formed ones. -/
def rawMsgs1 : List RawMsg := [rawLoc 0, badRawMsg, rawLoc 6]

/-! ### Lemmas about `get_next_lanes` -/

theorem gnlStep_miss (c : LaneId) (acc : List LaneId × Bool) (lane_id : LaneId)
    (h : lane_id ≠ c) (hb : acc.2 = false) :
    gnlStep (some c) acc lane_id = (acc.1, false) := by
  simp [gnlStep, h, hb]

theorem foldl_gnl_miss_seg (c : LaneId) (segs : List Segment) (acc : List LaneId)
    (h : ∀ seg ∈ segs, seg.id ≠ c) :
    segs.foldl (fun a segment => gnlStep (some c) a segment.id) (acc, false)
      = (acc, false) := by
  induction segs generalizing acc with
  | nil => rfl
  | cons sgm rest ih =>
    rw [List.foldl_cons, gnlStep_miss c (acc, false) sgm.id (h sgm (by simp)) rfl]
    exact ih acc (fun seg hs => h seg (by simp [hs]))

theorem foldl_gnl_miss_pass (c : LaneId) (passages : List Passage) (acc : List LaneId)
    (h : ∀ p ∈ passages, ∀ seg ∈ p.segment, seg.id ≠ c) :
    passages.foldl (fun a passage =>
        passage.segment.foldl (fun a segment => gnlStep (some c) a segment.id) a)
      (acc, false) = (acc, false) := by
  induction passages generalizing acc with
  | nil => rfl
  | cons p rest ih =>
    rw [List.foldl_cons, foldl_gnl_miss_seg c p.segment acc (h p (by simp))]
    exact ih acc (fun q hq seg hs => h q (by simp [hq]) seg hs)

theorem foldl_gnl_miss_road (c : LaneId) (roads : List Road) (acc : List LaneId)
    (h : ∀ r ∈ roads, ∀ p ∈ r.passage, ∀ seg ∈ p.segment, seg.id ≠ c) :
    roads.foldl (fun a road =>
        road.passage.foldl (fun a passage =>
          passage.segment.foldl (fun a segment => gnlStep (some c) a segment.id) a) a)
      (acc, false) = (acc, false) := by
  induction roads generalizing acc with
  | nil => rfl
  | cons r rest ih =>
    rw [List.foldl_cons, foldl_gnl_miss_pass c r.passage acc (h r (by simp))]
    exact ih acc (fun r' hr p hp seg hs => h r' (by simp [hr]) p hp seg hs)

theorem not_mem_planLanes_iff (msg : RoutingResponse) (c : LaneId) :
    c ∉ planLanes msg ↔
      ∀ r ∈ msg.road, ∀ p ∈ r.passage, ∀ seg ∈ p.segment, seg.id ≠ c := by
  simp only [planLanes, List.mem_flatten, List.mem_map]
  constructor
  · intro h r hr p hp seg hs hEq
    exact h ⟨(r.passage.map (fun passage => passage.segment.map Segment.id)).flatten,
      ⟨r, hr, rfl⟩, by
        simp only [List.mem_flatten, List.mem_map]
        exact ⟨p.segment.map Segment.id, ⟨p, hp, rfl⟩,
          hEq ▸ List.mem_map_of_mem Segment.id hs⟩⟩
  · rintro h ⟨_, ⟨r, hr, rfl⟩, hc⟩
    simp only [List.mem_flatten, List.mem_map] at hc
    obtain ⟨_, ⟨p, hp, rfl⟩, hc⟩ := hc
    obtain ⟨seg, hs, hEq⟩ := List.mem_map.1 hc
    exact h r hr p hp seg hs hEq

/-- C3 counterexample: with previous current lane `"X"`, absent from the plan
`[a, b]`, the recomputed `next_lanes` is `[]`, not the full plan from its
beginning (the claim predicts `["a", "b"]`). -/
theorem get_next_lanes_no_match_cex :
    get_next_lanes cexPlan (some "X") = [] ∧ planLanes cexPlan = ["a", "b"] ∧
      ([] : List LaneId) ≠ ["a", "b"] := by
  refine ⟨by with_unfolding_all decide, by with_unfolding_all decide, by decide⟩

/-- C3 (amended): when the previous current lane is non-null and does not
occur among the plan's segments, the recomputed `next_lanes` is the empty
list (the `is_hit` flag is never set, so nothing is appended); the fallback
to the full plan only happens when the previous lane is `None`. -/
theorem get_next_lanes_no_match_empty (msg : RoutingResponse) (c : LaneId)
    (h : c ∉ planLanes msg) :
    get_next_lanes msg (some c) = [] := by
  unfold get_next_lanes
  rw [foldl_gnl_miss_road c msg.road [] ((not_mem_planLanes_iff msg c).1 h)]

/-- C3 witness: the amended theorem applied to the concrete plan `[a, b]` and
absent lane `"X"`. -/
theorem get_next_lanes_no_match_empty_witness :
    get_next_lanes cexPlan (some "X") = [] :=
  get_next_lanes_no_match_empty cexPlan "X" (by with_unfolding_all decide)

/-- C9: processing the same routing message twice in immediate succession
(no intervening localization, so the current lane is unchanged) leaves the
pass in the same state as processing it once: the `next_lanes` update is an
idempotent pure function of the message and the current lane. -/
theorem routing_update_idempotent (env : Env) (s : WalkState) (t : ℚ)
    (r : RoutingResponse) :
    walkRunFrom env s [Msg.planning t r, Msg.planning t r]
      = walkRunFrom env s [Msg.planning t r] := rfl

/-! ### Lemmas about the candidate scan and disambiguation -/

theorem listIndex_getD (c : LaneId) (nl : List LaneId) :
    ∀ i, listIndex c nl = some i → nl.getD i "" = c := by
  induction nl with
  | nil => intro i h; simp [listIndex] at h
  | cons x xs ih =>
    intro i h
    by_cases hx : x = c
    · simp only [listIndex, if_pos hx] at h
      cases h
      simpa using hx
    · simp only [listIndex, if_neg hx, Option.map_eq_some'] at h
      obtain ⟨j, hj, rfl⟩ := h
      simpa using ih j hj

theorem listIndex_isSome_of_mem (c : LaneId) (nl : List LaneId) (h : c ∈ nl) :
    ∃ i, listIndex c nl = some i := by
  induction nl with
  | nil => simp at h
  | cons x xs ih =>
    by_cases hx : x = c
    · exact ⟨0, by simp [listIndex, hx]⟩
    · obtain ⟨i, hi⟩ := ih (by
        rcases List.mem_cons.1 h with h' | h'
        · exact absurd h'.symm hx
        · exact h')
      exact ⟨i + 1, by simp [listIndex, hx, hi]⟩

theorem listIndex_none_of_not_mem (c : LaneId) (nl : List LaneId) (h : c ∉ nl) :
    listIndex c nl = none := by
  induction nl with
  | nil => rfl
  | cons x xs ih =>
    have hx : x ≠ c := fun hEq => h (hEq ▸ List.mem_cons_self x xs)
    simp only [listIndex, if_neg hx, Option.map_eq_none']
    exact ih (fun hc => h (List.mem_cons_of_mem x hc))

theorem lastRoutingMatch_acc (nl : List LaneId) (cl : List LaneId) :
    ∀ acc : Option LaneId,
      cl.foldl (fun a c => if c ∈ nl then some c else a) acc
        = (lastRoutingMatch cl nl).or acc := by
  induction cl with
  | nil => intro acc; simp [lastRoutingMatch]
  | cons c cs ih =>
    intro acc
    rw [List.foldl_cons, ih]
    conv_rhs => rw [lastRoutingMatch, List.foldl_cons, ih (if c ∈ nl then some c else none)]
    rcases h : lastRoutingMatch cs nl with _ | d
    · by_cases hc : c ∈ nl <;> simp [hc, Option.or]
    · simp [Option.or]

theorem lastRoutingMatch_cons (nl : List LaneId) (c : LaneId) (cs : List LaneId) :
    lastRoutingMatch (c :: cs) nl
      = (lastRoutingMatch cs nl).or (if c ∈ nl then some c else none) := by
  rw [lastRoutingMatch, List.foldl_cons, lastRoutingMatch_acc]

theorem lastRoutingMatch_mem (nl : List LaneId) (cl : List LaneId) :
    ∀ c, lastRoutingMatch cl nl = some c → c ∈ nl := by
  induction cl with
  | nil => intro c h; simp [lastRoutingMatch] at h
  | cons a cs ih =>
    intro c h
    rw [lastRoutingMatch_cons] at h
    rcases hcs : lastRoutingMatch cs nl with _ | d
    · rw [hcs] at h
      by_cases ha : a ∈ nl
      · rw [if_pos ha] at h
        simp only [Option.or] at h
        cases h
        exact ha
      · simp [ha, Option.or] at h
    · rw [hcs] at h
      simp only [Option.or, Option.some.injEq] at h
      exact h ▸ ih d hcs

theorem lastRoutingMatch_isSome (nl : List LaneId) (cl : List LaneId)
    (h : ∃ c ∈ cl, c ∈ nl) : ∃ c, lastRoutingMatch cl nl = some c := by
  induction cl with
  | nil => simp at h
  | cons a cs ih =>
    rw [lastRoutingMatch_cons]
    rcases hcs : lastRoutingMatch cs nl with _ | d
    · obtain ⟨c, hc, hcnl⟩ := h
      rcases List.mem_cons.1 hc with rfl | hc'
      · exact ⟨c, by simp [Option.or, hcnl]⟩
      · obtain ⟨d, hd⟩ := ih ⟨c, hc', hcnl⟩
        rw [hd] at hcs; cases hcs
    · exact ⟨d, by simp [Option.or]⟩

theorem scanLanes_loc (nl : List LaneId) (tr : Finset LaneId) (cl : List LaneId) :
    ∀ (loc : Option Nat) (back : Option LaneId),
      (scanLanes nl tr cl loc back).1
        = match lastRoutingMatch cl nl with
          | some c => listIndex c nl
          | none => loc := by
  induction cl with
  | nil => intro loc back; simp [scanLanes, lastRoutingMatch]
  | cons a cs ih =>
    intro loc back
    rw [lastRoutingMatch_cons]
    rcases hidx : listIndex a nl with _ | i
    · have ha : a ∉ nl := by
        intro hc
        obtain ⟨i, hi⟩ := listIndex_isSome_of_mem a nl hc
        rw [hi] at hidx; cases hidx
      rw [scanLanes, hidx, ih]
      rcases lastRoutingMatch cs nl with _ | d <;> simp [ha, Option.or]
    · have ha : a ∈ nl := by
        by_contra hc
        rw [listIndex_none_of_not_mem a nl hc] at hidx
        cases hidx
      rw [scanLanes, hidx, ih]
      rcases lastRoutingMatch cs nl with _ | d <;> simp [ha, Option.or, hidx]

/-- C2 counterexample: candidates `[a, b]` are both members of
`next_lanes = [a, b]`; the spec's routing match (first candidate found in
`next_lanes`) is `a`, but the disambiguator resolves to `b`: the scan loop
overwrites `loc` without breaking, so the last match wins. -/
theorem resolveLane_first_match_cex :
    resolveLane ["a", "b"] ["a", "b"] ∅ = some "b" ∧
      specFirstRoutingMatch ["a", "b"] ["a", "b"] = some "a" ∧
      (some "b" : Option LaneId) ≠ some "a" := by
  refine ⟨by with_unfolding_all decide, by with_unfolding_all decide, by decide⟩

/-- C2 (amended): when multiple candidate lanes contain the position, the
routing match the code uses is the *last* candidate, in candidate iteration
order, that is a member of `next_lanes`; the resolved current lane equals
that routing match whenever any candidate is in `next_lanes`. -/
theorem resolveLane_eq_lastRoutingMatch (cl nl : List LaneId) (tr : Finset LaneId)
    (hlen : 1 < cl.length) (hex : ∃ c ∈ cl, c ∈ nl) :
    resolveLane cl nl tr = lastRoutingMatch cl nl := by
  obtain ⟨c, hc⟩ := lastRoutingMatch_isSome nl cl hex
  obtain ⟨i, hi⟩ := listIndex_isSome_of_mem c nl (lastRoutingMatch_mem nl cl c hc)
  rw [resolveLane, if_neg (by omega), if_pos hlen]
  simp only [scanLanes_loc, hc, hi, hc, listIndex_getD c nl i hi]

/-- C2 witness: the amended theorem applied to candidates `[a, b]` and
`next_lanes = [a, b]`: the resolved lane is the last match `b`. -/
theorem resolveLane_eq_lastRoutingMatch_witness :
    resolveLane ["a", "b"] ["a", "b"] ∅ = lastRoutingMatch ["a", "b"] ["a", "b"] :=
  resolveLane_eq_lastRoutingMatch ["a", "b"] ["a", "b"] ∅ (by decide)
    ⟨"a", by decide, by decide⟩

/-! ### Lemmas about the off-road debounce detector -/

theorem offRoadUpdate_pair_invariant (t : ℚ) (lane : LaneId) (dist pdist : ℚ)
    (cand : Option LaneId) (start : Option ℚ) (hinv : cand = none ↔ start = none) :
    ((offRoadUpdate t lane dist pdist cand start).1 = none ↔
      (offRoadUpdate t lane dist pdist cand start).2.1 = none) := by
  rcases start with _ | st
  · have hc : cand = none := hinv.2 rfl
    subst hc
    by_cases hd : dist = 0
    · simp [offRoadUpdate, hd]
    · simp [offRoadUpdate, hd]
  · have hc : ¬ cand = none := by
      intro h
      have := hinv.1 h
      simp at this
    by_cases hgap : t - st ≥ OFF_LANE_THRESHOLD
    · by_cases hd : dist = 0
      · simp [offRoadUpdate, hc, hd, hgap]
      · simp [offRoadUpdate, hc, hd, hgap]
    · by_cases hd : dist = 0
      · simp [offRoadUpdate, hc, hd, hgap]
      · simp [offRoadUpdate, hc, hd, hgap, not_le.1 hgap]

theorem offRoadUpdate_zero_sample (t : ℚ) (lane : LaneId) (dist pdist : ℚ)
    (cand : Option LaneId) (start : Option ℚ)
    (hinv : cand = none ↔ start = none) (hg : dist ≠ 0 → pdist ≠ 0)
    (hs : (offRoadUpdate t lane dist pdist cand start).2.2 = some 0) :
    ∃ st, start = some st ∧ t - st ≥ OFF_LANE_THRESHOLD ∧ dist = 0 := by
  rcases start with _ | st
  · exfalso
    have hc : cand = none := hinv.2 rfl
    subst hc
    by_cases hd : dist = 0
    · simp [offRoadUpdate, hd] at hs
    · simp [offRoadUpdate, hd] at hs
      exact hg hd hs
  · refine ⟨st, rfl, ?_⟩
    have hc : ¬ cand = none := by
      intro h
      have := hinv.1 h
      simp at this
    by_cases hgap : t - st ≥ OFF_LANE_THRESHOLD
    · by_cases hd : dist = 0
      · exact ⟨hgap, hd⟩
      · exfalso
        simp [offRoadUpdate, hc, hd, hgap] at hs
    · exfalso
      by_cases hd : dist = 0
      · simp [offRoadUpdate, hc, hd, hgap] at hs
      · simp [offRoadUpdate, hc, hd, hgap, not_le.1 hgap] at hs

theorem walkStep_offroad_pair_invariant (env : Env) (s : WalkState) (m : Msg)
    (hinv : s.off_road_candidate_lane = none ↔ s.intersect_start_time = none) :
    ((walkStep env s m).1.off_road_candidate_lane = none ↔
      (walkStep env s m).1.intersect_start_time = none) := by
  rcases m with ⟨t, r⟩ | ⟨t, p⟩ | t
  · simpa [walkStep] using hinv
  · simp only [walkStep, locStep]
    rcases h0 : s.init_timestamp with _ | t0
    · simpa using hinv
    · by_cases h1 : t - t0 ≤ 5
      · simpa [h1] using hinv
      · simp only [h1, if_false]
        rcases h2 : resolveLane
            (env.efficient_fetch_lane p.position.x p.position.y s.current_lane s.priority_lanes)
            s.next_lanes s.traveled_lanes with _ | lane
        · simpa using hinv
        · simp only [apply_ite WalkState.off_road_candidate_lane,
            apply_ite WalkState.intersect_start_time, ite_self]
          exact offRoadUpdate_pair_invariant _ _ _ _ _ _ hinv
  · simpa [walkStep] using hinv

theorem offRoadUpdate_confirmed (t : ℚ) (lane : LaneId) (pdist : ℚ) (c : LaneId)
    (st : ℚ) (h5 : t - st ≥ OFF_LANE_THRESHOLD) :
    offRoadUpdate t lane 0 pdist (some c) (some st) = (some c, some st, some pdist) := by
  simp [offRoadUpdate, h5]

/-- C6: a boundary touch lasting a single step appends no boundary-distance
sample at either the touch step or the reset step, and a 0-valued sample can
only be appended while a registered touch has been sustained for at least the
threshold of 5 time units.  Stated as: (a) any step emitting a 0-valued sample
has a registered start time at least the threshold in the past and
distance 0, given the registration invariant and the geometric fact that a
positive polygon distance forces a positive center-point distance; (b) a
fresh touch registers without sampling, and a nonzero distance before the
threshold elapses resets the registration without sampling; (c) every
`walkStep` preserves the registration invariant. -/
theorem offroad_debounce_single_touch :
    (∀ (t : ℚ) (lane : LaneId) (dist pdist : ℚ) (cand : Option LaneId) (start : Option ℚ),
      (cand = none ↔ start = none) → (dist ≠ 0 → pdist ≠ 0) →
      (offRoadUpdate t lane dist pdist cand start).2.2 = some 0 →
      ∃ st, start = some st ∧ t - st ≥ OFF_LANE_THRESHOLD ∧ dist = 0) ∧
    (∀ (t0 t1 : ℚ) (lane0 lane1 : LaneId) (d1 pd0 pd1 : ℚ),
      t1 - t0 < OFF_LANE_THRESHOLD → d1 ≠ 0 →
      offRoadUpdate t0 lane0 0 pd0 none none = (some lane0, some t0, none) ∧
      offRoadUpdate t1 lane1 d1 pd1 (some lane0) (some t0) = (none, none, none)) ∧
    (∀ (env : Env) (s : WalkState) (m : Msg),
      (s.off_road_candidate_lane = none ↔ s.intersect_start_time = none) →
      ((walkStep env s m).1.off_road_candidate_lane = none ↔
        (walkStep env s m).1.intersect_start_time = none)) := by
  refine ⟨offRoadUpdate_zero_sample, ?_, walkStep_offroad_pair_invariant⟩
  intro t0 t1 lane0 lane1 d1 pd0 pd1 hgap hd
  constructor
  · simp [offRoadUpdate]
  · simp [offRoadUpdate, hd, hgap, not_le.2 hgap]

/-- C6 witness: the three parts of the debounce theorem applied at concrete
inputs: a confirmed sample at time 11 with registration at time 6; a
single-step touch at time 0 reset at time 1; the invariant across a step. -/
theorem offroad_debounce_single_touch_witness :
    (∃ st, (some (6 : ℚ)) = some st ∧ (11 : ℚ) - st ≥ OFF_LANE_THRESHOLD ∧ (0 : ℚ) = 0) ∧
    (offRoadUpdate 0 "L" 0 1 none none = (some "L", some 0, none) ∧
      offRoadUpdate 1 "L" 1 1 (some "L") (some 0) = (none, none, none)) ∧
    ((walkStep env1 initState (locMsg 0)).1.off_road_candidate_lane = none ↔
      (walkStep env1 initState (locMsg 0)).1.intersect_start_time = none) :=
  ⟨offroad_debounce_single_touch.1 11 "L" 0 0 (some "L") (some 6) (by simp)
      (fun h => h) (by with_unfolding_all decide),
   offroad_debounce_single_touch.2.1 0 1 "L" "L" 1 1 1
      (by with_unfolding_all decide) (by with_unfolding_all decide),
   offroad_debounce_single_touch.2.2 env1 initState (locMsg 0) (by simp [initState])⟩

/-- C1 counterexample: under `env1` the polygon-boundary distance is 0 at
every step, so the registered touch persists 6 consecutive time units
(messages at 6..12), yet the two samples recorded in the confirmed state are
the center-point distance 1, not 0: no 0-valued sample appears. -/
theorem confirmed_sample_not_zero_cex :
    (walkRun env1 msgs1).1.dist_list = [1, 1] ∧
    (0 : ℚ) ∉ (walkRun env1 msgs1).1.dist_list ∧
    env1.polygon_boundary_dist pose0 "L" = 0 :=
  ⟨by with_unfolding_all decide, by with_unfolding_all decide,
   by with_unfolding_all decide⟩

/-- C1 (amended): at a post-warm-up localization step with a resolved lane,
when a boundary touch has been registered and has persisted at least the
threshold (`current_time - intersect_start_time >= 5`) and the
polygon-to-boundary distance is 0, the value appended to the
boundary-distance sample list is the distance from the vehicle center point
to the lane boundary — which need not be 0; in particular the
6-consecutive-time-unit scenario appends such a sample at each confirmed
step. -/
theorem confirmed_off_road_sample (env : Env) (s : WalkState) (t : ℚ) (p : Pose)
    (t0 : ℚ) (lane c : LaneId) (st : ℚ)
    (h0 : s.init_timestamp = some t0) (h1 : ¬ t - t0 ≤ 5)
    (h2 : resolveLane
        (env.efficient_fetch_lane p.position.x p.position.y s.current_lane s.priority_lanes)
        s.next_lanes s.traveled_lanes = some lane)
    (h3 : s.off_road_candidate_lane = some c) (h4 : s.intersect_start_time = some st)
    (h5 : t - st ≥ OFF_LANE_THRESHOLD) (h6 : env.polygon_boundary_dist p lane = 0) :
    (walkStep env s (Msg.localization t p)).1.dist_list =
      s.dist_list ++ [env.point_boundary_dist p.position.x p.position.y lane] := by
  simp only [walkStep, locStep, h0, h1, if_false, h2]
  simp only [apply_ite WalkState.dist_list, apply_ite WalkState.off_road_candidate_lane,
    apply_ite WalkState.intersect_start_time, ite_self, h3, h4, h6,
    offRoadUpdate_confirmed t lane _ c st h5, Option.toList_some]

/-- C1 witness: the amended theorem applied to the concrete state reached
after the first six messages of the 6-unit-touch scenario, at the confirmed
step `t = 11`: the sample appended is the center-point distance. -/
theorem confirmed_off_road_sample_witness :
    (walkStep env1 (walkRunFrom env1 initState (List.take 6 msgs1)).1
        (Msg.localization 11 pose0)).1.dist_list
      = (walkRunFrom env1 initState (List.take 6 msgs1)).1.dist_list
          ++ [env1.point_boundary_dist pose0.position.x pose0.position.y "L"] :=
  confirmed_off_road_sample env1 (walkRunFrom env1 initState (List.take 6 msgs1)).1
    11 pose0 0 "L" "L" 6
    (by with_unfolding_all decide) (by with_unfolding_all decide)
    (by with_unfolding_all decide) (by with_unfolding_all decide)
    (by with_unfolding_all decide) (by with_unfolding_all decide)
    (by with_unfolding_all decide)

/-! ### Warm-up and speed-margin step lemmas -/

theorem locStep_warm (env : Env) (s : WalkState) (t : ℚ) (p : Pose)
    (hw : isWarm s t = true) :
    locStep env s t p =
      ({ s with
          current_lane := resolveLane
            (env.efficient_fetch_lane p.position.x p.position.y s.current_lane s.priority_lanes)
            s.next_lanes s.traveled_lanes
          localization_num := s.localization_num + 1
          init_timestamp := some (s.init_timestamp.getD t) },
       ⟨t, ⟨p.position.x, p.position.y, s.current_lane, s.priority_lanes⟩,
        resolveLane
          (env.efficient_fetch_lane p.position.x p.position.y s.current_lane s.priority_lanes)
          s.next_lanes s.traveled_lanes, true⟩) := by
  rcases h0 : s.init_timestamp with _ | t0
  · simp only [locStep, h0]
    rfl
  · have h1 : t - t0 ≤ 5 := by
      rw [isWarm, h0] at hw
      exact of_decide_eq_true hw
    simp only [locStep, h0]
    rw [if_pos h1]
    rfl

/-- C4 counterexample: the very first localization message lies inside the
warm-up window (its own timestamp anchors it, and the step is logged as a
warm-up step), yet the carried current lane changes from `none` to the
resolved lane `"L"`: lane-state updates are *not* skipped during warm-up. -/
theorem warmup_lane_update_cex :
    (walkRun env1 [locMsg 0]).1.current_lane = some "L" ∧
    initState.current_lane = none ∧
    (walkRun env1 [locMsg 0]).2.map StepLog.warm = [true] :=
  ⟨by with_unfolding_all decide, by with_unfolding_all decide,
   by with_unfolding_all decide⟩

/-- C4 (amended): for a localization message inside the warm-up window the
step skips the traveled-lane, speed-margin, and off-road updates, but it does
*not* leave the carried current lane unchanged: the lane resolver and
disambiguator run before the warm-up check, so the step updates exactly the
current lane, the localization counter, and (for the first message) the
warm-up anchor timestamp. -/
theorem warmup_skips_but_updates_lane (env : Env) (s : WalkState) (t : ℚ) (p : Pose)
    (hw : isWarm s t = true) :
    (walkStep env s (Msg.localization t p)).1 =
      { s with
          current_lane := resolveLane
            (env.efficient_fetch_lane p.position.x p.position.y s.current_lane s.priority_lanes)
            s.next_lanes s.traveled_lanes
          localization_num := s.localization_num + 1
          init_timestamp := some (s.init_timestamp.getD t) } := by
  simp [walkStep, locStep_warm env s t p hw]

/-- C4 witness: the amended theorem applied to the very first localization
message of a pass under `env1`. -/
theorem warmup_skips_but_updates_lane_witness :
    (walkStep env1 initState (Msg.localization 0 pose0)).1 =
      { initState with
          current_lane := resolveLane
            (env1.efficient_fetch_lane pose0.position.x pose0.position.y
              initState.current_lane initState.priority_lanes)
            initState.next_lanes initState.traveled_lanes
          localization_num := initState.localization_num + 1
          init_timestamp := some (initState.init_timestamp.getD 0) } :=
  warmup_skips_but_updates_lane env1 initState 0 pose0 (by with_unfolding_all decide)

theorem ite_lt_min (a b : ℚ) : (if a < b then a else b) = min b a := by
  rcases lt_or_le a b with h | h
  · rw [if_pos h, min_eq_right h.le]
  · rw [if_neg (not_lt.2 h), min_eq_left h]

/-- C7: at a post-warm-up localization step with a resolved lane, the running
minimum speed margin is folded with `speedLimit - currentSpeed` exactly when
the lane speed limit (after unit conversion) is nonzero or more than one
candidate lane contained the position; otherwise it is left unchanged. -/
theorem speed_margin_condition (env : Env) (s : WalkState) (t : ℚ) (p : Pose)
    (t0 : ℚ) (lane : LaneId)
    (h0 : s.init_timestamp = some t0) (h1 : ¬ t - t0 ≤ 5)
    (h2 : resolveLane
        (env.efficient_fetch_lane p.position.x p.position.y s.current_lane s.priority_lanes)
        s.next_lanes s.traveled_lanes = some lane) :
    (walkStep env s (Msg.localization t p)).1.min_speed =
      if (env.lanes lane).speed_limit * ((36 : ℚ) / 10) ≠ 0
          ∨ (env.efficient_fetch_lane p.position.x p.position.y
              s.current_lane s.priority_lanes).length > 1
      then
        min s.min_speed
          ((env.lanes lane).speed_limit * ((36 : ℚ) / 10)
            - calculate_speed env p.linear_velocity * ((36 : ℚ) / 10))
      else s.min_speed := by
  simp only [walkStep, locStep, h0, h1, if_false, h2, apply_ite WalkState.min_speed]
  by_cases hcond : (env.lanes lane).speed_limit * ((36 : ℚ) / 10) ≠ 0
      ∨ (env.efficient_fetch_lane p.position.x p.position.y
          s.current_lane s.priority_lanes).length > 1
  · simp only [if_pos hcond]
    exact ite_lt_min _ _
  · simp only [if_neg hcond]

/-- C7 witness: a post-warm-up step under `env1` (speed limit 36 km/h,
current speed 0): the margin 36 is folded into the running minimum. -/
theorem speed_margin_condition_witness :
    (walkStep env1 { initState with init_timestamp := some 0 }
        (Msg.localization 6 pose0)).1.min_speed =
      if (env1.lanes "L").speed_limit * ((36 : ℚ) / 10) ≠ 0
          ∨ (env1.efficient_fetch_lane pose0.position.x pose0.position.y
              { initState with init_timestamp := some 0 }.current_lane
              { initState with init_timestamp := some 0 }.priority_lanes).length > 1
      then
        min { initState with init_timestamp := some (0 : ℚ) }.min_speed
          ((env1.lanes "L").speed_limit * ((36 : ℚ) / 10)
            - calculate_speed env1 pose0.linear_velocity * ((36 : ℚ) / 10))
      else { initState with init_timestamp := some (0 : ℚ) }.min_speed :=
  speed_margin_condition env1 { initState with init_timestamp := some 0 } 6 pose0 0 "L"
    (by with_unfolding_all decide) (by with_unfolding_all decide)
    (by with_unfolding_all decide)

/-! ### Step and run lemmas for the whole pass -/

theorem locStep_hint_and_priority (env : Env) (s : WalkState) (t : ℚ) (p : Pose) :
    (locStep env s t p).2.call.hint = s.priority_lanes ∧
    (locStep env s t p).1.priority_lanes = s.priority_lanes := by
  rcases h0 : s.init_timestamp with _ | t0
  · simp only [locStep, h0]
    exact ⟨trivial, trivial⟩
  · simp only [locStep, h0]
    by_cases h1 : t - t0 ≤ 5
    · rw [if_pos h1]
      exact ⟨rfl, rfl⟩
    · rw [if_neg h1]
      rcases h2 : resolveLane
          (env.efficient_fetch_lane p.position.x p.position.y s.current_lane s.priority_lanes)
          s.next_lanes s.traveled_lanes with _ | lane
      · exact ⟨rfl, rfl⟩
      · refine ⟨rfl, ?_⟩
        simp only [apply_ite WalkState.priority_lanes, ite_self]

theorem locStep_traveled (env : Env) (s : WalkState) (t : ℚ) (p : Pose) :
    ∀ l ∈ (locStep env s t p).1.traveled_lanes,
      l ∈ s.traveled_lanes ∨
        ((locStep env s t p).2.resolved = some l ∧ (locStep env s t p).2.warm = false) := by
  rcases h0 : s.init_timestamp with _ | t0
  · simp only [locStep, h0]
    intro l hl; exact Or.inl hl
  · simp only [locStep, h0]
    by_cases h1 : t - t0 ≤ 5
    · rw [if_pos h1]; intro l hl; exact Or.inl hl
    · rw [if_neg h1]
      rcases h2 : resolveLane
          (env.efficient_fetch_lane p.position.x p.position.y s.current_lane s.priority_lanes)
          s.next_lanes s.traveled_lanes with _ | lane
      · intro l hl; exact Or.inl hl
      · intro l hl
        simp only [apply_ite WalkState.traveled_lanes, ite_self] at hl
        rcases Finset.mem_insert.1 hl with rfl | hl'
        · exact Or.inr ⟨rfl, rfl⟩
        · exact Or.inl hl'

theorem locStep_init (env : Env) (s : WalkState) (t : ℚ) (p : Pose) :
    (locStep env s t p).1.init_timestamp = some (s.init_timestamp.getD t) := by
  rcases h0 : s.init_timestamp with _ | t0
  · simp only [locStep, h0]
    rfl
  · simp only [locStep, h0]
    by_cases h1 : t - t0 ≤ 5
    · rw [if_pos h1]; rfl
    · rw [if_neg h1]
      rcases h2 : resolveLane
          (env.efficient_fetch_lane p.position.x p.position.y s.current_lane s.priority_lanes)
          s.next_lanes s.traveled_lanes with _ | lane
      · rfl
      · simp only [apply_ite WalkState.init_timestamp, ite_self]
        rfl

theorem walkStep_init_or (env : Env) (s : WalkState) (m : Msg) :
    (walkStep env s m).1.init_timestamp =
      s.init_timestamp.or
        (match m with | Msg.localization t _ => some t | _ => none) := by
  rcases m with ⟨t, r⟩ | ⟨t, p⟩ | t
  · simp [walkStep]
  · rw [show (walkStep env s (Msg.localization t p)).1 = (locStep env s t p).1 from rfl,
      locStep_init]
    rcases s.init_timestamp with _ | t0 <;> rfl
  · simp [walkStep]

theorem walkRunFrom_init (env : Env) (msgs : List Msg) :
    ∀ s : WalkState,
      (walkRunFrom env s msgs).1.init_timestamp = s.init_timestamp.or (firstLocTs msgs) := by
  induction msgs with
  | nil => intro s; simp [walkRunFrom, firstLocTs]
  | cons m ms ih =>
    intro s
    simp only [walkRunFrom]
    rw [ih, walkStep_init_or]
    rcases m with ⟨t, r⟩ | ⟨t, p⟩ | t
    · simp [firstLocTs]
    · rcases s.init_timestamp with _ | t0 <;> simp [firstLocTs]
    · simp [firstLocTs]

theorem walkRunFrom_traveled (env : Env) (msgs : List Msg) :
    ∀ (s : WalkState) (l : LaneId), l ∈ (walkRunFrom env s msgs).1.traveled_lanes →
      l ∈ s.traveled_lanes ∨
        ∃ e ∈ (walkRunFrom env s msgs).2, e.resolved = some l ∧ e.warm = false := by
  induction msgs with
  | nil => intro s l hl; exact Or.inl hl
  | cons m ms ih =>
    intro s l hl
    simp only [walkRunFrom] at hl ⊢
    rcases ih _ l hl with hl1 | ⟨e, he, hprops⟩
    · rcases m with ⟨t, r⟩ | ⟨t, p⟩ | t
      · exact Or.inl (by simpa [walkStep] using hl1)
      · rcases locStep_traveled env s t p l (by simpa [walkStep] using hl1) with h | ⟨h1, h2⟩
        · exact Or.inl h
        · exact Or.inr ⟨(locStep env s t p).2, by
            simp [walkStep, List.mem_append], h1, h2⟩
      · exact Or.inl (by simpa [walkStep] using hl1)
    · exact Or.inr ⟨e, by simp [List.mem_append]; exact Or.inr he, hprops⟩

theorem walkStep_priority_state (env : Env) (s : WalkState) (m : Msg) :
    (walkStep env s m).1.priority_lanes = s.priority_lanes := by
  rcases m with ⟨t, r⟩ | ⟨t, p⟩ | t
  · simp [walkStep]
  · exact (locStep_hint_and_priority env s t p).2
  · simp [walkStep]

theorem walkRunFrom_priority (env : Env) (msgs : List Msg) :
    ∀ s : WalkState, s.priority_lanes = none →
      (walkRunFrom env s msgs).1.priority_lanes = none ∧
      ∀ e ∈ (walkRunFrom env s msgs).2, e.call.hint = none := by
  induction msgs with
  | nil => intro s h; exact ⟨h, by simp [walkRunFrom]⟩
  | cons m ms ih =>
    intro s h
    have hstep : (walkStep env s m).1.priority_lanes = none :=
      (walkStep_priority_state env s m).trans h
    obtain ⟨h1, h2⟩ := ih _ hstep
    refine ⟨by simpa [walkRunFrom] using h1, ?_⟩
    intro e he
    simp only [walkRunFrom, List.mem_append] at he
    rcases he with he | he
    · rcases m with ⟨t, r⟩ | ⟨t, p⟩ | t
      · simp [walkStep] at he
      · simp only [walkStep, Option.toList_some, List.mem_singleton] at he
        rw [he]
        exact ((locStep_hint_and_priority env s t p).1).trans h
      · simp [walkStep] at he
    · exact h2 e he

/-- C5: warm-up invariant and traveled-set soundness.  (a) A localization
step inside the warm-up window (`init_timestamp` unset, or timestamp minus
the latched first-localization timestamp at most 5) changes none of the
traveled-lane set, the running minimum speed margin, or the
boundary-distance sample list; (b) over a whole pass, `init_timestamp` is
exactly the first localization message timestamp; (c) every lane in the
final traveled set was the resolved current lane of some logged
post-warm-up step. -/
theorem warmup_invariant_and_traveled_soundness :
    (∀ (env : Env) (s : WalkState) (t : ℚ) (p : Pose), isWarm s t = true →
      (walkStep env s (Msg.localization t p)).1.traveled_lanes = s.traveled_lanes ∧
      (walkStep env s (Msg.localization t p)).1.min_speed = s.min_speed ∧
      (walkStep env s (Msg.localization t p)).1.dist_list = s.dist_list) ∧
    (∀ (env : Env) (msgs : List Msg),
      (walkRun env msgs).1.init_timestamp = firstLocTs msgs) ∧
    (∀ (env : Env) (msgs : List Msg) (l : LaneId),
      l ∈ (walkRun env msgs).1.traveled_lanes →
      ∃ e ∈ (walkRun env msgs).2, e.resolved = some l ∧ e.warm = false) := by
  refine ⟨?_, ?_, ?_⟩
  · intro env s t p hw
    rw [show (walkStep env s (Msg.localization t p)).1 = (locStep env s t p).1 from rfl,
      locStep_warm env s t p hw]
    exact ⟨rfl, rfl, rfl⟩
  · intro env msgs
    have h := walkRunFrom_init env msgs initState
    simpa [walkRun, initState] using h
  · intro env msgs l hl
    rcases walkRunFrom_traveled env msgs initState l hl with h | h
    · simp [initState] at h
    · exact h

/-- C5 witness: under `env1`, the first (warm-up) step changes no outputs;
the pass over the 6-unit scenario latches `init_timestamp` to 0; and the
traveled lane `"L"` comes from a logged post-warm-up step. -/
theorem warmup_invariant_and_traveled_soundness_witness :
    ((walkStep env1 initState (Msg.localization 0 pose0)).1.traveled_lanes
        = initState.traveled_lanes ∧
      (walkStep env1 initState (Msg.localization 0 pose0)).1.min_speed
        = initState.min_speed ∧
      (walkStep env1 initState (Msg.localization 0 pose0)).1.dist_list
        = initState.dist_list) ∧
    ((walkRun env1 msgs1).1.init_timestamp = firstLocTs msgs1) ∧
    (∃ e ∈ (walkRun env1 msgs1).2, e.resolved = some "L" ∧ e.warm = false) :=
  ⟨warmup_invariant_and_traveled_soundness.1 env1 initState 0 pose0
      (by with_unfolding_all decide),
   warmup_invariant_and_traveled_soundness.2.1 env1 msgs1,
   warmup_invariant_and_traveled_soundness.2.2 env1 msgs1 "L"
      (by with_unfolding_all decide)⟩

/-- C10: the `priority_lanes` variable is initialized to `None` and never
reassigned, so it stays `None` through the whole pass and every call the
pass makes to the lane resolver passes `None` as the priority-hint
argument. -/
theorem resolver_hint_always_none (env : Env) (msgs : List Msg) :
    (walkRun env msgs).1.priority_lanes = none ∧
    ∀ e ∈ (walkRun env msgs).2, e.call.hint = none :=
  walkRunFrom_priority env msgs initState rfl

/-- C10 witness: the single-step pass under `env1` ends with a `None` hint
state, and its one logged resolver call carries hint `None`. -/
theorem resolver_hint_always_none_witness :
    (walkRun env1 [locMsg 0]).1.priority_lanes = none ∧
    ({ time := 0, call := ⟨0, 0, none, none⟩, resolved := some "L", warm := true }
        : StepLog).call.hint = none :=
  ⟨(resolver_hint_always_none env1 [locMsg 0]).1,
   (resolver_hint_always_none env1 [locMsg 0]).2
     { time := 0, call := ⟨0, 0, none, none⟩, resolved := some "L", warm := true }
     (by with_unfolding_all decide)⟩

/-- C8 counterexample: a message whose decoded payload lacks the expected
header timestamp field aborts the whole session pass with the uncaught
exception; the claim instead predicts the message is skipped and the pass
continues. -/
theorem malformed_message_fatal_cex :
    walkRunE env1 initState rawMsgs1 = Except.error "missing header" := by
  with_unfolding_all rfl

theorem walkStepE_error (env : Env) (s : WalkState) (m : RawMsg) (e : String)
    (hbad : m.timestamp_sec = Except.error e
      ∨ (∃ t, m.timestamp_sec = Except.ok t)
          ∧ m.channel = "/apollo/planning" ∧ m.routing = Except.error e
      ∨ (∃ t, m.timestamp_sec = Except.ok t)
          ∧ m.channel = "/apollo/localization/pose" ∧ m.pose = Except.error e) :
    walkStepE env s m = Except.error e := by
  rcases hbad with h | ⟨⟨t, ht⟩, hch, hr⟩ | ⟨⟨t, ht⟩, hch, hp⟩
  · simp only [walkStepE, h]
  · simp [walkStepE, ht, hch, hr]
  · simp [walkStepE, ht, hch, hp]

/-- C8 (amended): a message whose payload lacks an expected field — the
header timestamp read for every message, the routing payload of a planning
message, or the pose payload of a localization message — is not skipped: the
failing field access propagates as an uncaught exception and stops the
session pass fatally at that message, and no message after it is processed
(the result is the error, independent of the suffix). -/
theorem malformed_message_aborts (env : Env) (s : WalkState) (pre : List RawMsg)
    (bad : RawMsg) (post : List RawMsg) (e : String) (s1 : WalkState)
    (hbad : bad.timestamp_sec = Except.error e
      ∨ (∃ t, bad.timestamp_sec = Except.ok t)
          ∧ bad.channel = "/apollo/planning" ∧ bad.routing = Except.error e
      ∨ (∃ t, bad.timestamp_sec = Except.ok t)
          ∧ bad.channel = "/apollo/localization/pose" ∧ bad.pose = Except.error e)
    (hpre : walkRunE env s pre = Except.ok s1) :
    walkRunE env s (pre ++ bad :: post) = Except.error e := by
  induction pre generalizing s with
  | nil =>
    simp only [List.nil_append, walkRunE, walkStepE_error env s bad e hbad]
  | cons m ms ih =>
    simp only [walkRunE] at hpre
    rcases hstep : walkStepE env s m with e' | s2
    · rw [hstep] at hpre; cases hpre
    · rw [hstep] at hpre
      simp only [List.cons_append, walkRunE, hstep]
      exact ih s2 hpre

/-- C8 witness: the amended theorem applied to a concrete stream whose middle
message has a valid header timestamp but lacks the pose field expected on its
localization channel: the pass returns that access error and the trailing
well-formed message is never processed. -/
theorem malformed_message_aborts_witness :
    walkRunE env1 initState
      ([rawLoc 0] ++
        (⟨"/apollo/localization/pose", Except.ok 3, Except.error "no routing field",
          Except.error "missing pose"⟩ : RawMsg) :: [rawLoc 6])
      = Except.error "missing pose" :=
  malformed_message_aborts env1 initState [rawLoc 0]
    ⟨"/apollo/localization/pose", Except.ok 3, Except.error "no routing field",
      Except.error "missing pose"⟩
    [rawLoc 6] "missing pose" (locStep env1 initState 0 pose0).1
    (Or.inr (Or.inr ⟨⟨3, rfl⟩, rfl, rfl⟩)) (by with_unfolding_all rfl)
